import Mathlib

set_option linter.unusedVariables false

/-!
Shallow embedding of the PMB UMB Jakarta API authentication core
(src/main.py and src/schemas.py): password hashing/verification,
JWT issuance/validation, the auth-gate dependency, and the
registration / login / listing endpoints, together with theorems
settling the specification claims.

Conventions of the embedding:
* Time is a `Nat` count of seconds (UTC); `datetime.now(timezone.utc)`
  becomes an explicit `now : Nat` parameter.
* Randomness (the bcrypt salt drawn per `hash` call) and store-assigned
  ids (`inserted_id`) become explicit parameters.
* A raised exception becomes `Except.error`: `Failure.http s d` is a
  fastapi `HTTPException(status_code=s, detail=d)` and
  `Failure.uncaught e` an exception that escapes the handler
  (surfaced by the framework as a 500 Internal Server Error,
  distinct from any `HTTPException` raised on purpose).
-/

namespace PMB

instance {ε α : Type} [DecidableEq ε] [DecidableEq α] : DecidableEq (Except ε α)
  | .error e1, .error e2 =>
    if h : e1 = e2 then isTrue (by rw [h]) else isFalse (by simp [h])
  | .error _, .ok _ => isFalse fun hh => Except.noConfusion hh
  | .ok _, .error _ => isFalse fun hh => Except.noConfusion hh
  | .ok a1, .ok a2 =>
    if h : a1 = a2 then isTrue (by rw [h]) else isFalse (by simp [h])

/-- Account role, from `schemas.py` `User.role : Literal['applicant', 'admin']`. -/
inductive Role where
  | applicant
  | admin
deriving DecidableEq, Repr

/-- The string stored in Mongo / carried in JWT claims for a role. -/
def roleStr : Role → String
  | .applicant => "applicant"
  | .admin => "admin"

/-- Modelled from the spec: the stored credential produced by passlib's
`CryptContext(schemes=["bcrypt"])` (the library is external to the
repository).  A well-formed value records the random salt and the
digest; the digest is idealized as an injective function of
(salt, plaintext) — here the plaintext itself, since one-wayness is
outside the model.  `invalid` stands for a corrupt stored value or an
unsupported hash scheme. -/
inductive StoredCred where
  | bcrypt (salt : Nat) (digest : String)
  | invalid (raw : String)
deriving DecidableEq, Repr

/-- Modelled from the spec: `pwd_context.verify`.  On a well-formed
bcrypt value it recomputes the digest of the candidate plaintext under
the embedded salt and compares; on a corrupt/unsupported value the
library raises (`Except.error`). -/
def pwd_context_verify (plain : String) (hashed : StoredCred) : Except String Bool :=
  match hashed with
  | .bcrypt _ digest => Except.ok (plain == digest)
  | .invalid _ => Except.error "passlib.exc.UnknownHashError"

/-- `hash_password` (src/main.py line 35): `pwd_context.hash(password)`
with the per-call random salt made explicit. -/
def hash_password (salt : Nat) (password : String) : StoredCred :=
  StoredCred.bcrypt salt password

/-- `verify_password` (src/main.py lines 39-43): delegates to
`pwd_context.verify` and catches every exception, returning `False`. -/
def verify_password (plain : String) (hashed : StoredCred) : Bool :=
  match pwd_context_verify plain hashed with
  | Except.ok b => b
  | Except.error _ => false

/-- `SECRET_KEY` (src/main.py line 27): `os.getenv("SECRET_KEY",
"supersecretkeychange")`, modelled as the hardcoded fallback; only the
key's identity matters to the theorems. -/
def SECRET_KEY : String := "supersecretkeychange"

/-- `ACCESS_TOKEN_EXPIRE_MINUTES` (src/main.py line 29). -/
def ACCESS_TOKEN_EXPIRE_MINUTES : Nat := 60 * 12

/-- The JWT claim set used by this application: `sub`, `email`, `role`,
`exp` (absolute expiry in seconds). -/
structure Claims where
  sub : Option String := none
  email : Option String := none
  role : Option String := none
  exp : Option Nat := none
deriving DecidableEq, Repr

/-- A JWT as received by the server: either a structurally well-formed
token signed under some key, or a malformed string. -/
inductive Token where
  | signed (key : String) (claims : Claims)
  | malformed (raw : String)
deriving DecidableEq, Repr

/-- Modelled from the spec: `jose.jwt.decode(token, key,
algorithms=["HS256"])`.  Raises `JWTError` (an `Except.error`) for a
malformed token, a signature that does not verify under `key`, or an
`exp` claim in the past (jose checks `exp < now`). -/
def jwt_decode (key : String) (now : Nat) (tok : Token) : Except String Claims :=
  match tok with
  | .malformed _ => Except.error "JWTError: Not enough segments"
  | .signed k c =>
    if k ≠ key then Except.error "JWTError: Signature verification failed."
    else
      match c.exp with
      | some e => if e < now then Except.error "ExpiredSignatureError" else Except.ok c
      | none => Except.ok c

/-- `create_access_token` (src/main.py lines 46-50): copies the data
claims, sets `exp = now + (expires_delta or default)` and signs with
`SECRET_KEY`.  `expires_delta` is in seconds; the default is
`ACCESS_TOKEN_EXPIRE_MINUTES` minutes. -/
def create_access_token (now : Nat) (data : Claims) (expires_delta : Option Nat) : Token :=
  Token.signed SECRET_KEY
    { data with exp := some (now + expires_delta.getD (ACCESS_TOKEN_EXPIRE_MINUTES * 60)) }

/-- An error outcome visible to the caller: a deliberate
`HTTPException` or an exception that escaped the handler. -/
inductive Failure where
  | http (status : Nat) (detail : String)
  | uncaught (exc : String)
deriving DecidableEq, Repr

/-- The `credentials_exception` of `get_current_user`
(src/main.py line 147). -/
def credentials_exception : Failure := Failure.http 401 "Tidak terautentikasi"

/-- Modelled from the spec: `bson.ObjectId.is_valid` on a string —
true exactly for 24-character hex strings.  `ObjectId(s)` raises
`bson.errors.InvalidId` when this is false. -/
def ObjectId_is_valid (s : String) : Bool :=
  s.length == 24 &&
    s.data.all fun c => c.isDigit || (('a' ≤ c) && (c ≤ 'f')) || (('A' ≤ c) && (c ≤ 'F'))

/-- A persisted account document in the `user` collection, with the
fields `register` writes (`User.model_dump()` plus hashed password and
timestamps) and the store-assigned `_id` (as its string form). -/
structure UserDoc where
  oid : String
  full_name : String
  email : String
  password : StoredCred
  role : Role
  is_active : Bool
  created_at : Nat
  updated_at : Nat
deriving DecidableEq, Repr

/-- Registration request body, from `schemas.py` `User`:
`role` defaults to `'applicant'` and `is_active` to `True` when
omitted. -/
structure User where
  full_name : String
  email : String
  password : String
  role : Role := Role.applicant
  is_active : Bool := true
deriving DecidableEq, Repr

/-- `LoginRequest` (schemas.py lines 49-51). -/
structure LoginRequest where
  email : String
  password : String
deriving DecidableEq, Repr

/-- `MeResponse` (schemas.py lines 57-61): the identity view returned
by `register` and `/auth/me`; it has no credential/password field. -/
structure MeResponse where
  id : String
  full_name : String
  email : String
  role : Role
deriving DecidableEq, Repr

/-- `TokenResponse` (schemas.py lines 53-55). -/
structure TokenResponse where
  access_token : Token
  token_type : String
deriving DecidableEq, Repr

/-- The JSON payload of a `MeResponse` as a key/value list. -/
def meResponsePayload (r : MeResponse) : List (String × String) :=
  [("id", r.id), ("full_name", r.full_name), ("email", r.email), ("role", roleStr r.role)]

/-- The existence check of `register`:
`db["user"].find_one({"email": user.email})` (src/main.py line 118). -/
def email_exists (store : List UserDoc) (email : String) : Bool :=
  (store.find? fun u => u.email == email).isSome

/-- The document `register` inserts: `user.model_dump()` with the
password replaced by its hash and both timestamps set to now
(src/main.py lines 122-125). -/
def mk_user_doc (now salt : Nat) (newId : String) (u : User) : UserDoc :=
  { oid := newId, full_name := u.full_name, email := u.email,
    password := hash_password salt u.password, role := u.role,
    is_active := u.is_active, created_at := now, updated_at := now }

/-- Modelled from the spec: `insert_one` on a store with no uniqueness
constraint (per §9 of the spec, the reference enforces uniqueness only
by the applicative check-then-insert). -/
def insert_user (store : List UserDoc) (doc : UserDoc) : List UserDoc :=
  store ++ [doc]

/-- The duplicate-email error of `register` (src/main.py line 120). -/
def conflictError : Failure := Failure.http 400 "Email sudah terdaftar"

/-- `register` (src/main.py lines 113-128): check-then-insert on the
email, returning the identity view with the store-assigned id, and the
updated store. -/
def register (store : List UserDoc) (now salt : Nat) (newId : String) (u : User) :
    Except Failure MeResponse × List UserDoc :=
  if email_exists store u.email then
    (Except.error conflictError, store)
  else
    (Except.ok { id := newId, full_name := u.full_name, email := u.email, role := u.role },
     insert_user store (mk_user_doc now salt newId u))

/-- The generic login failure (src/main.py line 138), raised both for
an unknown email and for a failed password verification. -/
def loginError : Failure := Failure.http 401 "Email atau password salah"

/-- `login` (src/main.py lines 131-141): look up by email; a missing
account and a failed `verify_password` raise the very same exception;
on success issue a token with `sub`/`email`/`role` claims and the
default expiry. -/
def login (store : List UserDoc) (now : Nat) (payload : LoginRequest) :
    Except Failure TokenResponse :=
  match store.find? fun u => u.email == payload.email with
  | none => Except.error loginError
  | some user =>
    if verify_password payload.password user.password then
      Except.ok
        { access_token := create_access_token now
            { sub := some user.oid, email := some user.email,
              role := some (roleStr user.role), exp := none } none,
          token_type := "bearer" }
    else Except.error loginError

/-- `db["user"].find_one({"_id": ObjectId(user_id)})`
(src/main.py line 157). -/
def find_one_by_id (store : List UserDoc) (oid : String) : Option UserDoc :=
  store.find? fun u => u.oid == oid

/-- `get_current_user` (src/main.py lines 144-160) applied to a
presented token.  Any `JWTError` from decoding, a missing `sub` claim,
and a valid-ObjectId `sub` with no matching account all raise
`credentials_exception`.  A present `sub` that is not a valid ObjectId
reaches `ObjectId(user_id)` outside the `except JWTError` block, so
`bson.errors.InvalidId` escapes uncaught. -/
def get_current_user (store : List UserDoc) (now : Nat) (token : Token) :
    Except Failure UserDoc :=
  match jwt_decode SECRET_KEY now token with
  | Except.error _ => Except.error credentials_exception
  | Except.ok payload =>
    match payload.sub with
    | none => Except.error credentials_exception
    | some user_id =>
      if ObjectId_is_valid user_id then
        match find_one_by_id store user_id with
        | none => Except.error credentials_exception
        | some user => Except.ok user
      else Except.error (Failure.uncaught "bson.errors.InvalidId")

/-- Modelled from the spec: fastapi's `OAuth2PasswordBearer` dependency
(src/main.py line 32) raises `HTTPException(401, "Not authenticated")`
when the request carries no bearer token. -/
def oauth2_extract (header : Option Token) : Except Failure Token :=
  match header with
  | none => Except.error (Failure.http 401 "Not authenticated")
  | some t => Except.ok t

/-- The full auth-gate dependency as seen by a protected route:
token extraction followed by `get_current_user`. -/
def get_current_user_dep (store : List UserDoc) (now : Nat) (header : Option Token) :
    Except Failure UserDoc :=
  match oauth2_extract header with
  | Except.error e => Except.error e
  | Except.ok tok => get_current_user store now tok

/-- `/auth/me` (src/main.py lines 163-165): the identity view of the
resolved current account. -/
def me_endpoint (store : List UserDoc) (now : Nat) (header : Option Token) :
    Except Failure MeResponse :=
  match get_current_user_dep store now header with
  | Except.error e => Except.error e
  | Except.ok u =>
    Except.ok { id := u.oid, full_name := u.full_name, email := u.email, role := u.role }

/-- A stored applicant document: the `_id` (string form) and the
remaining fields as a key/value list. -/
structure MongoDoc where
  oid : String
  fields : List (String × String)
deriving DecidableEq, Repr

/-- `serialize_doc` (src/main.py lines 66-72): rename `_id` to `id`
(stringified); timestamp iso-formatting does not change the key set. -/
def serialize_doc (d : MongoDoc) : List (String × String) :=
  ("id", d.oid) :: d.fields

/-- Modelled from the spec: `get_documents` from the absent
`database.py` — fetch up to `limit` stored records. -/
def get_documents (docs : List MongoDoc) (limit : Nat) : List MongoDoc :=
  docs.take limit

/-- `GET /api/applicants` (src/main.py lines 178-184): public listing,
default limit 50.  The route declares no auth dependency, so the
request's bearer token (`header`) is never consulted. -/
def list_applicants (applicants : List MongoDoc) (limit : Option Nat)
    (header : Option Token) : Except Failure (List (List (String × String))) :=
  Except.ok ((get_documents applicants (limit.getD 50)).map serialize_doc)

/-- `GET /admin/applicants` (src/main.py lines 188-197): auth gate,
then the role check `role != "admin"` → 403, else the listing with
default limit 100. -/
def admin_list_applicants (store : List UserDoc) (applicants : List MongoDoc)
    (now : Nat) (limit : Option Nat) (header : Option Token) :
    Except Failure (List (List (String × String))) :=
  match get_current_user_dep store now header with
  | Except.error e => Except.error e
  | Except.ok current_user =>
    if roleStr current_user.role ≠ "admin" then
      Except.error (Failure.http 403 "Akses ditolak")
    else
      Except.ok ((get_documents applicants (limit.getD 100)).map serialize_doc)

/-- The number of stored accounts carrying a given email. -/
def countEmail (store : List UserDoc) (email : String) : Nat :=
  (store.filter fun u => u.email == email).length

/-- Two concurrent `register` requests interleaved so that both
`find_one` existence checks run before either `insert_one`
(the check-then-insert race of src/main.py lines 118-127, documented
as an open issue in §9 of the spec).  Returns both responses and the
final store. -/
def register_race (store : List UserDoc) (now1 now2 salt1 salt2 : Nat)
    (id1 id2 : String) (u1 u2 : User) :
    Except Failure MeResponse × Except Failure MeResponse × List UserDoc :=
  let ex1 := email_exists store u1.email
  let ex2 := email_exists store u2.email
  let store1 := if ex1 then store else insert_user store (mk_user_doc now1 salt1 id1 u1)
  let store2 := if ex2 then store1 else insert_user store1 (mk_user_doc now2 salt2 id2 u2)
  (if ex1 then Except.error conflictError
    else Except.ok { id := id1, full_name := u1.full_name, email := u1.email, role := u1.role },
   if ex2 then Except.error conflictError
    else Except.ok { id := id2, full_name := u2.full_name, email := u2.email, role := u2.role },
   store2)

/-- The `exp` claim carried by a token (none for a malformed token). -/
def tokenExp : Token → Option Nat
  | .signed _ c => c.exp
  | .malformed _ => none

/-- The HTTP status of a failure, when it is a deliberate
`HTTPException` (an uncaught exception has no chosen status). -/
def failureStatus : Failure → Option Nat
  | .http s _ => some s
  | .uncaught _ => none

/-! ## Helper lemmas -/

theorem find?_append_singleton {α} (p : α → Bool) (l : List α) (d : α)
    (hl : l.find? p = none) (hd : p d = true) : (l ++ [d]).find? p = some d := by
  rw [List.find?_append, hl, List.find?_cons_of_pos _ hd]
  rfl

theorem countEmail_of_not_exists (store : List UserDoc) (email : String)
    (h : email_exists store email = false) : countEmail store email = 0 := by
  have hn : (store.find? fun u => u.email == email) = none := by
    rcases hf : store.find? fun u => u.email == email with _ | u
    · exact hf
    · simp [email_exists, hf] at h
  have hall := List.find?_eq_none.mp hn
  simp [countEmail, List.filter_eq_nil_iff.mpr hall]

theorem countEmail_append_singleton (store : List UserDoc) (d : UserDoc) (email : String) :
    countEmail (store ++ [d]) email =
      countEmail store email + (if d.email == email then 1 else 0) := by
  by_cases h : d.email == email <;>
    simp [countEmail, List.filter_append, List.filter, h]

theorem email_exists_append_singleton (store : List UserDoc) (d : UserDoc) (e : String)
    (hd : (d.email == e) = true) : email_exists (store ++ [d]) e = true := by
  rcases hf : store.find? fun u => u.email == e with _ | u
  · simp [email_exists, find?_append_singleton _ store d hf hd]
  · simp [email_exists, List.find?_append, hf]

/-! ## Claim theorems -/

/-- C3: for every plaintext `p`, `verify(p, hash(p))` is true; two
calls of `hash(p)` with distinct random salts produce distinct stored
values that both verify against `p`; and for distinct plaintexts,
verification against the other's hash fails. -/
theorem c3_hash_verify_roundtrip (p p1 p2 : String) (s s1 s2 : Nat) :
    verify_password p (hash_password s p) = true ∧
    (s1 ≠ s2 → hash_password s1 p ≠ hash_password s2 p ∧
      verify_password p (hash_password s1 p) = true ∧
      verify_password p (hash_password s2 p) = true) ∧
    (p1 ≠ p2 → verify_password p1 (hash_password s p2) = false) := by
  refine ⟨?_, fun h => ⟨?_, ?_, ?_⟩, fun h => ?_⟩
  · simp [verify_password, pwd_context_verify, hash_password]
  all_goals simp [verify_password, pwd_context_verify, hash_password, h]

/-- Witness for C3 at concrete inputs. -/
theorem c3_hash_verify_roundtrip_witness :
    verify_password "hunter2" (hash_password 0 "hunter2") = true ∧
    hash_password 0 "hunter2" ≠ hash_password 1 "hunter2" ∧
    verify_password "hunter2" (hash_password 1 "hunter2") = true ∧
    verify_password "letmein" (hash_password 0 "hunter2") = false := by
  obtain ⟨h1, h2, h3⟩ := c3_hash_verify_roundtrip "hunter2" "letmein" "hunter2" 0 0 1
  exact ⟨h1, (h2 (by decide)).1, (h2 (by decide)).2.2, h3 (by decide)⟩

/-- C4: `verify_password` fails closed — whenever the underlying
library verification raises, the caller sees `false`; in particular a
corrupt/unsupported stored value yields `false`; and the function is
total, always returning a boolean to its caller rather than raising. -/
theorem c4_verify_fail_closed (plain raw : String) (hashed : StoredCred) (e : String) :
    (pwd_context_verify plain hashed = Except.error e →
      verify_password plain hashed = false) ∧
    verify_password plain (StoredCred.invalid raw) = false ∧
    (verify_password plain hashed = true ∨ verify_password plain hashed = false) := by
  refine ⟨fun h => ?_, rfl, ?_⟩
  · simp [verify_password, h]
  · rcases Bool.eq_false_or_eq_true (verify_password plain hashed) with h | h
    · exact Or.inl h
    · exact Or.inr h

/-- Witness for C4 at a concrete corrupt stored value. -/
theorem c4_verify_fail_closed_witness :
    pwd_context_verify "x" (StoredCred.invalid "garbage") =
      Except.error "passlib.exc.UnknownHashError" ∧
    verify_password "x" (StoredCred.invalid "garbage") = false := by
  refine ⟨rfl, ?_⟩
  exact (c4_verify_fail_closed "x" "garbage" (StoredCred.invalid "garbage")
    "passlib.exc.UnknownHashError").1 rfl

/-- C7: token issuance sets `exp = now + ttl`, with a default ttl of
12 hours; a token issued with ttl `T` decodes successfully at any time
strictly before `issue + T` and makes the auth gate fail with the
401 `credentials_exception` at any time strictly after `issue + T`. -/
theorem c7_token_expiry (now issue T : Nat) (data : Claims) (store : List UserDoc) :
    tokenExp (create_access_token now data none) = some (now + 12 * 60 * 60) ∧
    tokenExp (create_access_token now data (some T)) = some (now + T) ∧
    (now < issue + T →
      jwt_decode SECRET_KEY now (create_access_token issue data (some T)) =
        Except.ok { data with exp := some (issue + T) }) ∧
    (issue + T < now →
      get_current_user store now (create_access_token issue data (some T)) =
        Except.error credentials_exception) := by
  refine ⟨?_, ?_, fun h => ?_, fun h => ?_⟩
  · simp [tokenExp, create_access_token, ACCESS_TOKEN_EXPIRE_MINUTES]
  · simp [tokenExp, create_access_token]
  · have h' : ¬ (issue + T < now) := by omega
    simp [jwt_decode, create_access_token, h']
  · simp [get_current_user, jwt_decode, create_access_token, h]

/-- Witness for C7: a ttl-10 token issued at time 0 decodes at time 5
and is rejected by the gate at time 20. -/
theorem c7_token_expiry_witness :
    jwt_decode SECRET_KEY 5 (create_access_token 0 {} (some 10)) =
      Except.ok { exp := some 10 } ∧
    get_current_user [] 20 (create_access_token 0 {} (some 10)) =
      Except.error credentials_exception := by
  refine ⟨?_, (c7_token_expiry 20 0 10 {} []).2.2.2 (by omega)⟩
  have h := (c7_token_expiry 5 0 10 {} []).2.2.1 (by omega)
  simpa using h

/-- C1 counterexample: a token signed under the server's key whose
`sub` claim is present but not a valid ObjectId makes
`get_current_user` raise an uncaught `bson.errors.InvalidId`
(`ObjectId(user_id)` sits outside the `except JWTError` block), which
is a caller-visible error distinct from the uniform 401
`credentials_exception` — refuting the claim for the garbled-subject
case. -/
theorem c1_garbled_sub_counterexample :
    get_current_user [] 0
        (Token.signed SECRET_KEY { sub := some "not-a-valid-objectid", exp := some 100 }) =
      Except.error (Failure.uncaught "bson.errors.InvalidId") ∧
    Failure.uncaught "bson.errors.InvalidId" ≠ credentials_exception := by
  exact ⟨by decide, by decide⟩

/-- C1 (amended): a malformed token, a token signed under any key
other than the server's (regardless of claim contents), an expired
token, and a token with a missing subject claim all make token
validation fail with the very same 401 `credentials_exception`
(indistinguishable to the caller); a present but garbled (non-ObjectId)
subject claim is excluded — it escapes as an uncaught error. -/
theorem c1_token_invalid_uniform (store : List UserDoc) (now : Nat)
    (raw k : String) (c : Claims) :
    get_current_user store now (Token.malformed raw) = Except.error credentials_exception ∧
    (k ≠ SECRET_KEY →
      get_current_user store now (Token.signed k c) = Except.error credentials_exception) ∧
    (∀ e, c.exp = some e → e < now →
      get_current_user store now (Token.signed SECRET_KEY c) =
        Except.error credentials_exception) ∧
    (c.sub = none →
      get_current_user store now (Token.signed SECRET_KEY c) =
        Except.error credentials_exception) := by
  refine ⟨rfl, fun h => ?_, fun e he hlt => ?_, fun hs => ?_⟩
  · simp [get_current_user, jwt_decode, h]
  · simp [get_current_user, jwt_decode, he, hlt]
  · rcases hexp : c.exp with _ | e
    · simp [get_current_user, jwt_decode, hexp, hs]
    · by_cases hlt : e < now
      · simp [get_current_user, jwt_decode, hexp, hlt]
      · simp [get_current_user, jwt_decode, hexp, hlt, hs]

/-- Witness for C1 (amended) at concrete tokens: malformed, wrong key,
expired, and missing subject each yield the same 401. -/
theorem c1_token_invalid_uniform_witness :
    get_current_user [] 0 (Token.malformed "xx") = Except.error credentials_exception ∧
    get_current_user [] 0
        (Token.signed "otherkey" { sub := some "aaaaaaaaaaaaaaaaaaaaaaaa" }) =
      Except.error credentials_exception ∧
    get_current_user [] 10
        (Token.signed SECRET_KEY { sub := some "aaaaaaaaaaaaaaaaaaaaaaaa", exp := some 5 }) =
      Except.error credentials_exception ∧
    get_current_user [] 0 (Token.signed SECRET_KEY { exp := some 100 }) =
      Except.error credentials_exception := by
  refine ⟨(c1_token_invalid_uniform [] 0 "xx" "k" {}).1,
    (c1_token_invalid_uniform [] 0 "xx" "otherkey"
      { sub := some "aaaaaaaaaaaaaaaaaaaaaaaa" }).2.1 (by decide),
    (c1_token_invalid_uniform [] 10 "xx" "k"
      { sub := some "aaaaaaaaaaaaaaaaaaaaaaaa", exp := some 5 }).2.2.1 5 rfl (by omega),
    (c1_token_invalid_uniform [] 0 "xx" "k" { exp := some 100 }).2.2.2 rfl⟩

/-- C2: the auth gate returns the Unauthenticated class (status 401)
identically for a missing token, any token rejected by JWT decoding,
and a structurally valid token whose subject resolves to no stored
account (the latter two raise the byte-identical
`credentials_exception`); and on the admin-only listing a resolved
applicant-role account receives the 403 Forbidden error, a status
distinct from 401. -/
theorem c2_auth_gate_errors (store : List UserDoc) (apps : List MongoDoc)
    (now : Nat) (limit : Option Nat) (tok : Token) (c : Claims) (sid e : String)
    (u : UserDoc) :
    get_current_user_dep store now none = Except.error (Failure.http 401 "Not authenticated") ∧
    (jwt_decode SECRET_KEY now tok = Except.error e →
      get_current_user_dep store now (some tok) = Except.error credentials_exception) ∧
    (jwt_decode SECRET_KEY now tok = Except.ok c → c.sub = some sid →
      ObjectId_is_valid sid = true → find_one_by_id store sid = none →
      get_current_user_dep store now (some tok) = Except.error credentials_exception) ∧
    failureStatus (Failure.http 401 "Not authenticated") = some 401 ∧
    failureStatus credentials_exception = some 401 ∧
    (get_current_user store now tok = Except.ok u → u.role = Role.applicant →
      admin_list_applicants store apps now limit (some tok) =
        Except.error (Failure.http 403 "Akses ditolak")) ∧
    failureStatus (Failure.http 403 "Akses ditolak") ≠ some 401 := by
  refine ⟨rfl, fun hd => ?_, fun hd hsub hval hfind => ?_, rfl, rfl,
    fun hok hrole => ?_, by decide⟩
  · simp [get_current_user_dep, oauth2_extract, get_current_user, hd]
  · simp [get_current_user_dep, oauth2_extract, get_current_user, hd, hsub, hval, hfind]
  · have : roleStr u.role ≠ "admin" := by
      rw [hrole]
      decide
    simp [admin_list_applicants, get_current_user_dep, oauth2_extract, hok, this]

/-- Witness for C2: with a one-applicant store, a missing token, an
expired token, and a valid token for a vanished account each yield a
401, and the applicant's own valid token on the admin listing yields
the 403. -/
theorem c2_auth_gate_errors_witness :
    get_current_user_dep
        [{ oid := "aaaaaaaaaaaaaaaaaaaaaaaa", full_name := "Alice", email := "a@x.com",
           password := hash_password 0 "secret1", role := Role.applicant,
           is_active := true, created_at := 0, updated_at := 0 }] 0 none =
      Except.error (Failure.http 401 "Not authenticated") ∧
    get_current_user_dep
        [{ oid := "aaaaaaaaaaaaaaaaaaaaaaaa", full_name := "Alice", email := "a@x.com",
           password := hash_password 0 "secret1", role := Role.applicant,
           is_active := true, created_at := 0, updated_at := 0 }] 10
        (some (Token.signed SECRET_KEY
          { sub := some "aaaaaaaaaaaaaaaaaaaaaaaa", exp := some 5 })) =
      Except.error credentials_exception ∧
    get_current_user_dep [] 0
        (some (Token.signed SECRET_KEY
          { sub := some "bbbbbbbbbbbbbbbbbbbbbbbb", exp := some 100 })) =
      Except.error credentials_exception ∧
    admin_list_applicants
        [{ oid := "aaaaaaaaaaaaaaaaaaaaaaaa", full_name := "Alice", email := "a@x.com",
           password := hash_password 0 "secret1", role := Role.applicant,
           is_active := true, created_at := 0, updated_at := 0 }] [] 0 none
        (some (Token.signed SECRET_KEY
          { sub := some "aaaaaaaaaaaaaaaaaaaaaaaa", exp := some 100 })) =
      Except.error (Failure.http 403 "Akses ditolak") := by
  refine ⟨(c2_auth_gate_errors
      [{ oid := "aaaaaaaaaaaaaaaaaaaaaaaa", full_name := "Alice", email := "a@x.com",
         password := hash_password 0 "secret1", role := Role.applicant,
         is_active := true, created_at := 0, updated_at := 0 }] [] 0 none
      (Token.malformed "xx") {} "s" "e"
      { oid := "aaaaaaaaaaaaaaaaaaaaaaaa", full_name := "Alice", email := "a@x.com",
        password := hash_password 0 "secret1", role := Role.applicant,
        is_active := true, created_at := 0, updated_at := 0 }).1, ?_, ?_, ?_⟩
  · exact (c2_auth_gate_errors
      [{ oid := "aaaaaaaaaaaaaaaaaaaaaaaa", full_name := "Alice", email := "a@x.com",
         password := hash_password 0 "secret1", role := Role.applicant,
         is_active := true, created_at := 0, updated_at := 0 }] [] 10 none
      (Token.signed SECRET_KEY { sub := some "aaaaaaaaaaaaaaaaaaaaaaaa", exp := some 5 })
      {} "s" "ExpiredSignatureError"
      { oid := "aaaaaaaaaaaaaaaaaaaaaaaa", full_name := "Alice", email := "a@x.com",
        password := hash_password 0 "secret1", role := Role.applicant,
        is_active := true, created_at := 0, updated_at := 0 }).2.1 (by decide)
  · exact (c2_auth_gate_errors [] [] 0 none
      (Token.signed SECRET_KEY { sub := some "bbbbbbbbbbbbbbbbbbbbbbbb", exp := some 100 })
      { sub := some "bbbbbbbbbbbbbbbbbbbbbbbb", exp := some 100 }
      "bbbbbbbbbbbbbbbbbbbbbbbb" "e"
      { oid := "aaaaaaaaaaaaaaaaaaaaaaaa", full_name := "Alice", email := "a@x.com",
        password := hash_password 0 "secret1", role := Role.applicant,
        is_active := true, created_at := 0, updated_at := 0 }).2.2.1
      (by decide) rfl (by decide) rfl
  · exact (c2_auth_gate_errors
      [{ oid := "aaaaaaaaaaaaaaaaaaaaaaaa", full_name := "Alice", email := "a@x.com",
         password := hash_password 0 "secret1", role := Role.applicant,
         is_active := true, created_at := 0, updated_at := 0 }] [] 0 none
      (Token.signed SECRET_KEY { sub := some "aaaaaaaaaaaaaaaaaaaaaaaa", exp := some 100 })
      {} "s" "e"
      { oid := "aaaaaaaaaaaaaaaaaaaaaaaa", full_name := "Alice", email := "a@x.com",
        password := hash_password 0 "secret1", role := Role.applicant,
        is_active := true, created_at := 0, updated_at := 0 }).2.2.2.2.2.1
      (by decide) rfl

/-- C5: a login whose email resolves to an account but whose password
fails verification, and a login whose email resolves to no account,
raise the byte-identical error (same status, same detail): the single
`loginError` value. -/
theorem c5_login_indistinguishable (store : List UserDoc) (now1 now2 : Nat)
    (p1 p2 : LoginRequest) (u : UserDoc) :
    ((store.find? fun v => v.email == p1.email) = some u →
      verify_password p1.password u.password = false →
      login store now1 p1 = Except.error loginError) ∧
    ((store.find? fun v => v.email == p2.email) = none →
      login store now2 p2 = Except.error loginError) ∧
    ((store.find? fun v => v.email == p1.email) = some u →
      verify_password p1.password u.password = false →
      (store.find? fun v => v.email == p2.email) = none →
      login store now1 p1 = login store now2 p2) := by
  refine ⟨fun hf hv => ?_, fun hn => ?_, fun hf hv hn => ?_⟩
  · simp [login, hf, hv]
  · simp [login, hn]
  · simp [login, hf, hv, hn]

/-- Witness for C5: against a one-account store, a wrong password for
the registered email and a nonexistent email produce the same
response. -/
theorem c5_login_indistinguishable_witness :
    login [{ oid := "aaaaaaaaaaaaaaaaaaaaaaaa", full_name := "Alice", email := "a@x.com",
             password := hash_password 0 "secret1", role := Role.applicant,
             is_active := true, created_at := 0, updated_at := 0 }] 0
        { email := "a@x.com", password := "wrong" } = Except.error loginError ∧
    login [{ oid := "aaaaaaaaaaaaaaaaaaaaaaaa", full_name := "Alice", email := "a@x.com",
             password := hash_password 0 "secret1", role := Role.applicant,
             is_active := true, created_at := 0, updated_at := 0 }] 0
        { email := "b@x.com", password := "secret1" } = Except.error loginError ∧
    login [{ oid := "aaaaaaaaaaaaaaaaaaaaaaaa", full_name := "Alice", email := "a@x.com",
             password := hash_password 0 "secret1", role := Role.applicant,
             is_active := true, created_at := 0, updated_at := 0 }] 0
        { email := "a@x.com", password := "wrong" } =
      login [{ oid := "aaaaaaaaaaaaaaaaaaaaaaaa", full_name := "Alice", email := "a@x.com",
               password := hash_password 0 "secret1", role := Role.applicant,
               is_active := true, created_at := 0, updated_at := 0 }] 0
        { email := "b@x.com", password := "secret1" } := by
  obtain ⟨h1, h2, h3⟩ := c5_login_indistinguishable
    [{ oid := "aaaaaaaaaaaaaaaaaaaaaaaa", full_name := "Alice", email := "a@x.com",
       password := hash_password 0 "secret1", role := Role.applicant,
       is_active := true, created_at := 0, updated_at := 0 }] 0 0
    { email := "a@x.com", password := "wrong" }
    { email := "b@x.com", password := "secret1" }
    { oid := "aaaaaaaaaaaaaaaaaaaaaaaa", full_name := "Alice", email := "a@x.com",
      password := hash_password 0 "secret1", role := Role.applicant,
      is_active := true, created_at := 0, updated_at := 0 }
  exact ⟨h1 (by decide) (by decide), h2 (by decide),
    h3 (by decide) (by decide) (by decide)⟩

/-- C6 counterexample: two concurrent registrations of the same email,
interleaved so both existence checks precede both inserts (the
check-then-insert race), both succeed and leave TWO stored accounts
with that email — refuting the no-duplicates-under-concurrency part of
the claim. -/
theorem c6_concurrent_duplicate_counterexample :
    register_race [] 0 0 1 2 "aaaaaaaaaaaaaaaaaaaaaaaa" "bbbbbbbbbbbbbbbbbbbbbbbb"
        { full_name := "Alice", email := "a@x.com", password := "secret1" }
        { full_name := "Bobby", email := "a@x.com", password := "secret2" } =
      (Except.ok { id := "aaaaaaaaaaaaaaaaaaaaaaaa", full_name := "Alice",
                   email := "a@x.com", role := Role.applicant },
       Except.ok { id := "bbbbbbbbbbbbbbbbbbbbbbbb", full_name := "Bobby",
                   email := "a@x.com", role := Role.applicant },
       [mk_user_doc 0 1 "aaaaaaaaaaaaaaaaaaaaaaaa"
          { full_name := "Alice", email := "a@x.com", password := "secret1" },
        mk_user_doc 0 2 "bbbbbbbbbbbbbbbbbbbbbbbb"
          { full_name := "Bobby", email := "a@x.com", password := "secret2" }]) ∧
    countEmail
        [mk_user_doc 0 1 "aaaaaaaaaaaaaaaaaaaaaaaa"
           { full_name := "Alice", email := "a@x.com", password := "secret1" },
         mk_user_doc 0 2 "bbbbbbbbbbbbbbbbbbbbbbbb"
           { full_name := "Bobby", email := "a@x.com", password := "secret2" }]
        "a@x.com" = 2 := by
  exact ⟨by decide, by decide⟩

/-- C6 (amended): under sequential execution, registering an email
that already exists fails with the conflict error and leaves the store
unchanged; and after a first successful registration exactly one
account with that email is stored, and a second registration of the
same email fails with the conflict error without changing the store.
The original claim's guarantee under concurrent submission does not
hold: the check-then-insert pattern can persist duplicates. -/
theorem c6_sequential_conflict (store : List UserDoc) (now1 now2 salt1 salt2 : Nat)
    (id1 id2 : String) (u1 u2 : User) :
    (email_exists store u1.email = true →
      register store now1 salt1 id1 u1 = (Except.error conflictError, store)) ∧
    (email_exists store u1.email = false → u2.email = u1.email →
      countEmail (register store now1 salt1 id1 u1).2 u1.email = 1 ∧
      register (register store now1 salt1 id1 u1).2 now2 salt2 id2 u2 =
        (Except.error conflictError, (register store now1 salt1 id1 u1).2)) := by
  refine ⟨fun h => ?_, fun h he => ?_⟩
  · simp [register, h]
  · have hstore : (register store now1 salt1 id1 u1).2 =
        store ++ [mk_user_doc now1 salt1 id1 u1] := by
      simp [register, h, insert_user]
    constructor
    · rw [hstore, countEmail_append_singleton, countEmail_of_not_exists store u1.email h]
      simp [mk_user_doc]
    · have hex : email_exists (store ++ [mk_user_doc now1 salt1 id1 u1]) u2.email = true := by
        apply email_exists_append_singleton
        simp [mk_user_doc, he]
      rw [hstore]
      simp [register, hex]

/-- Witness for C6 (amended): registering `a@x.com` twice in sequence
stores exactly one account and the second attempt gets the conflict
error with the store unchanged. -/
theorem c6_sequential_conflict_witness :
    countEmail (register [] 0 1 "aaaaaaaaaaaaaaaaaaaaaaaa"
        { full_name := "Alice", email := "a@x.com", password := "secret1" }).2 "a@x.com" = 1 ∧
    register (register [] 0 1 "aaaaaaaaaaaaaaaaaaaaaaaa"
          { full_name := "Alice", email := "a@x.com", password := "secret1" }).2
        0 2 "bbbbbbbbbbbbbbbbbbbbbbbb"
        { full_name := "Bobby", email := "a@x.com", password := "secret2" } =
      (Except.error conflictError,
       (register [] 0 1 "aaaaaaaaaaaaaaaaaaaaaaaa"
          { full_name := "Alice", email := "a@x.com", password := "secret1" }).2) := by
  exact (c6_sequential_conflict [] 0 0 1 2 "aaaaaaaaaaaaaaaaaaaaaaaa" "bbbbbbbbbbbbbbbbbbbbbbbb"
    { full_name := "Alice", email := "a@x.com", password := "secret1" }
    { full_name := "Bobby", email := "a@x.com", password := "secret2" }).2 rfl rfl

/-- C8: a successful registration responds with exactly the identity
view (id, full_name, email, role); current-account resolution responds
with exactly the identity view of the resolved account; and the
response payload of that view carries only the keys id/full_name/
email/role — never a password or credential key (the stored credential
is a `StoredCred`, a type no `MeResponse` field can carry). -/
theorem c8_credential_stripped (store : List UserDoc) (now salt : Nat) (newId : String)
    (u : User) (r : MeResponse) (header : Option Token) :
    ((register store now salt newId u).1 = Except.ok r →
      r = { id := newId, full_name := u.full_name, email := u.email, role := u.role }) ∧
    (me_endpoint store now header = Except.ok r →
      ∃ d : UserDoc, get_current_user_dep store now header = Except.ok d ∧
        r = { id := d.oid, full_name := d.full_name, email := d.email, role := d.role }) ∧
    (meResponsePayload r).map Prod.fst = ["id", "full_name", "email", "role"] ∧
    "password" ∉ (meResponsePayload r).map Prod.fst ∧
    "credential" ∉ (meResponsePayload r).map Prod.fst := by
  refine ⟨fun h => ?_, fun h => ?_, rfl, by simp [meResponsePayload], by simp [meResponsePayload]⟩
  · by_cases hex : email_exists store u.email
    · simp [register, hex] at h
    · simp [register, hex] at h
      exact h.symm
  · rcases hd : get_current_user_dep store now header with e | d
    · simp [me_endpoint, hd] at h
    · simp [me_endpoint, hd] at h
      exact ⟨d, rfl, h.symm⟩

/-- Witness for C8: the concrete registration of Alice returns exactly
the identity view, whose payload has no password/credential key. -/
theorem c8_credential_stripped_witness :
    (register [] 0 0 "aaaaaaaaaaaaaaaaaaaaaaaa"
        { full_name := "Alice", email := "a@x.com", password := "secret1" }).1 =
      Except.ok { id := "aaaaaaaaaaaaaaaaaaaaaaaa", full_name := "Alice",
                  email := "a@x.com", role := Role.applicant } ∧
    ({ id := "aaaaaaaaaaaaaaaaaaaaaaaa", full_name := "Alice",
       email := "a@x.com", role := Role.applicant } : MeResponse) =
      { id := "aaaaaaaaaaaaaaaaaaaaaaaa", full_name := "Alice",
        email := "a@x.com", role := Role.applicant } ∧
    "password" ∉ (meResponsePayload
      { id := "aaaaaaaaaaaaaaaaaaaaaaaa", full_name := "Alice",
        email := "a@x.com", role := Role.applicant }).map Prod.fst := by
  refine ⟨by decide, ?_, ?_⟩
  · exact (c8_credential_stripped [] 0 0 "aaaaaaaaaaaaaaaaaaaaaaaa"
      { full_name := "Alice", email := "a@x.com", password := "secret1" }
      { id := "aaaaaaaaaaaaaaaaaaaaaaaa", full_name := "Alice",
        email := "a@x.com", role := Role.applicant } none).1 (by decide)
  · exact (c8_credential_stripped [] 0 0 "aaaaaaaaaaaaaaaaaaaaaaaa"
      { full_name := "Alice", email := "a@x.com", password := "secret1" }
      { id := "aaaaaaaaaaaaaaaaaaaaaaaa", full_name := "Alice",
        email := "a@x.com", role := Role.applicant } none).2.2.2.1

/-- C9: registration persists and echoes exactly the role supplied in
the unauthenticated request body; the request schema defaults the role
to applicant when omitted; and an account registered with role admin,
after logging in with its own credentials, passes the admin-only role
gate and receives the listing. -/
theorem c9_role_from_request (store : List UserDoc) (apps : List MongoDoc)
    (now now2 now3 salt : Nat) (newId : String) (u : User) (limit : Option Nat) :
    (email_exists store u.email = false →
      (register store now salt newId u).2 = store ++ [mk_user_doc now salt newId u] ∧
      (mk_user_doc now salt newId u).role = u.role ∧
      (register store now salt newId u).1 =
        Except.ok { id := newId, full_name := u.full_name, email := u.email, role := u.role }) ∧
    ({ full_name := u.full_name, email := u.email, password := u.password } : User).role =
      Role.applicant ∧
    (email_exists store u.email = false → u.role = Role.admin →
      ObjectId_is_valid newId = true → find_one_by_id store newId = none →
      login (register store now salt newId u).2 now2
          { email := u.email, password := u.password } =
        Except.ok
          { access_token :=
              (Token.signed SECRET_KEY
                { sub := some newId, email := some u.email, role := some (roleStr u.role),
                  exp := some (now2 + ACCESS_TOKEN_EXPIRE_MINUTES * 60) }),
            token_type := "bearer" } ∧
      (now3 ≤ now2 + ACCESS_TOKEN_EXPIRE_MINUTES * 60 →
        admin_list_applicants (register store now salt newId u).2 apps now3 limit
            (some (Token.signed SECRET_KEY
              { sub := some newId, email := some u.email, role := some (roleStr u.role),
                exp := some (now2 + ACCESS_TOKEN_EXPIRE_MINUTES * 60) })) =
          Except.ok ((get_documents apps (limit.getD 100)).map serialize_doc))) := by
  refine ⟨fun h => ⟨?_, rfl, ?_⟩, rfl, fun h hadmin hval hfind => ?_⟩
  · simp [register, h, insert_user]
  · simp [register, h]
  · have hstore : (register store now salt newId u).2 =
        store ++ [mk_user_doc now salt newId u] := by
      simp [register, h, insert_user]
    have hfe : (store.find? fun v => v.email == u.email) = none := by
      rcases hf : store.find? fun v => v.email == u.email with _ | v
      · exact hf
      · simp [email_exists, hf] at h
    have hfinde : ((store ++ [mk_user_doc now salt newId u]).find?
        fun v => v.email == u.email) = some (mk_user_doc now salt newId u) :=
      find?_append_singleton _ store _ hfe (by simp [mk_user_doc])
    have hfid : find_one_by_id (store ++ [mk_user_doc now salt newId u]) newId =
        some (mk_user_doc now salt newId u) := by
      unfold find_one_by_id at hfind ⊢
      exact find?_append_singleton _ store _ hfind (by simp [mk_user_doc])
    rw [hstore]
    constructor
    · simp [login, hfe, mk_user_doc, hash_password, verify_password,
        pwd_context_verify, create_access_token]
    · intro hle
      have hnotexp : ¬ (now2 + ACCESS_TOKEN_EXPIRE_MINUTES * 60 < now3) := by omega
      have hrole : roleStr (mk_user_doc now salt newId u).role = "admin" := by
        simp [mk_user_doc, hadmin, roleStr]
      simp [admin_list_applicants, get_current_user_dep, oauth2_extract,
        get_current_user, jwt_decode, hnotexp, hval, hfid, hrole]

/-- Witness for C9: a caller registers Boss with role admin on an
empty store; logging in returns a token under which the admin-only
listing succeeds. -/
theorem c9_role_from_request_witness :
    login (register [] 0 0 "aaaaaaaaaaaaaaaaaaaaaaaa"
          { full_name := "Boss", email := "b@x.com", password := "secret1",
            role := Role.admin }).2 0
        { email := "b@x.com", password := "secret1" } =
      Except.ok
        { access_token :=
            (Token.signed SECRET_KEY
              { sub := some "aaaaaaaaaaaaaaaaaaaaaaaa", email := some "b@x.com",
                role := some "admin", exp := some 43200 }),
          token_type := "bearer" } ∧
    admin_list_applicants (register [] 0 0 "aaaaaaaaaaaaaaaaaaaaaaaa"
          { full_name := "Boss", email := "b@x.com", password := "secret1",
            role := Role.admin }).2 [] 0 none
        (some (Token.signed SECRET_KEY
          { sub := some "aaaaaaaaaaaaaaaaaaaaaaaa", email := some "b@x.com",
            role := some "admin", exp := some 43200 })) =
      Except.ok [] := by
  obtain ⟨h1, h2⟩ := (c9_role_from_request [] [] 0 0 0 0 "aaaaaaaaaaaaaaaaaaaaaaaa"
    { full_name := "Boss", email := "b@x.com", password := "secret1", role := Role.admin }
    none).2.2 rfl rfl (by decide) rfl
  exact ⟨h1, h2 (by omega)⟩

/-- C10: the public listing returns the stored applicant records up to
the given limit (default 50) and is independent of any token presented
with the request, for every store state. -/
theorem c10_public_listing (apps : List MongoDoc) (limit : Option Nat)
    (h1 h2 : Option Token) :
    list_applicants apps limit h1 = list_applicants apps limit h2 ∧
    list_applicants apps limit h1 =
      Except.ok ((get_documents apps (limit.getD 50)).map serialize_doc) ∧
    get_documents apps (limit.getD 50) = apps.take (limit.getD 50) ∧
    list_applicants apps none h1 = Except.ok ((apps.take 50).map serialize_doc) :=
  ⟨rfl, rfl, rfl, rfl⟩

end PMB
